import Mathlib

/-!
Verification of the FinRobot agent-orchestration core
(`finrobot/agents/workflows.py`, `finrobot/agents/response_utils.py`,
`finrobot/agents/agent_library.py`) against its natural-language
specification.

The Python code is shallowly embedded: conversation threads become lists of
messages, the external backend (the `agent_framework` `ChatAgent.run` model
call) becomes an explicit oracle function, fallible calls return `Except`,
and every workflow `chat` additionally returns the trace of backend
exchanges it performed, so that exchange counts and message contents are
provable.
-/

namespace FinRobot

/-! ## Conversation threads

Models `agent_framework.AgentThread` (an external collaborator, spec section
2): an ordered transcript of messages.  A non-streaming exchange appends the
user message and the assistant reply, which is exactly what the spec's mock
backend observes (spec section 8, "transcript length 0 then at least 2"). -/

inductive Role where
  | user
  | assistant
deriving DecidableEq, Repr

structure ChatMsg where
  role : Role
  content : String
deriving DecidableEq, Repr

abbrev Thread := List ChatMsg

/-- One backend exchange appends the user turn and the assistant turn to the
thread, modelling `agent.run(message, thread=...)`. -/
def runAppend (t : Thread) (message response : String) : Thread :=
  t ++ [⟨Role.user, message⟩, ⟨Role.assistant, response⟩]

/-- The backend oracle: given the agent's name, the transcript of the thread
the exchange runs on, and the message, it produces the assistant's reply
text.  Models the external model call of `ChatAgent.run`. -/
abbrev Oracle := String → Thread → String → String

/-- A recorded backend exchange: which agent was invoked, with which message,
and what it replied. -/
structure Exchange where
  agent : String
  message : String
  response : String
deriving DecidableEq, Repr

/-! ## Python character helpers

`re`'s `\s` and `str.strip()` over the ASCII whitespace characters. -/

/-- Whitespace as matched by Python's `\s` and stripped by `str.strip()`
(ASCII part). -/
def pySpace (c : Char) : Bool :=
  c = ' ' || c = '\t' || c = '\n' || c = '\r' || c = '\x0b' || c = '\x0c'

/-- Python `str.strip()`: drop whitespace from both ends. -/
def pyStrip (s : List Char) : List Char :=
  ((s.dropWhile pySpace).reverse.dropWhile pySpace).reverse

/-! ## Delegation-marker parsing

`MultiAssistantWithLeader.chat` (workflows.py lines 465-478) runs
`re.search(r'\[([^\]]+)\]\s*(.+)', leader_response.text)` and strips both
groups.  The regex is embedded directly: `matchMarkerAt` is the anchored
match attempt at one position (with the greedy/backtracking semantics of
`\[([^\]]+)\]\s*(.+)` worked out on lists of characters), and `searchMarker`
is `re.search`'s leftmost scan. -/

/-- Group 2 of `\s*(.+)` applied to the text following the closing bracket:
the greedy `\s*` consumes the maximal whitespace run and backtracks until
`.+` can match at least one non-newline character; the captured group is the
run of non-newline characters from that point. -/
def instrGroup (after : List Char) : Option (List Char) :=
  match after.dropWhile pySpace with
  | c :: rest => some ((c :: rest).takeWhile (fun ch => ch ≠ '\n'))
  | [] =>
    match ((after.takeWhile pySpace).filter (fun ch => ch ≠ '\n')).getLast? with
    | some c => some [c]
    | none => none

/-- Anchored attempt of `\[([^\]]+)\]\s*(.+)` at the head of `s`, returning
(group 1, group 2) on success. -/
def matchMarkerAt (s : List Char) : Option (List Char × List Char) :=
  match s with
  | [] => none
  | c :: rest =>
    if c = '[' then
      match rest.takeWhile (fun ch => ch ≠ ']'), rest.dropWhile (fun ch => ch ≠ ']') with
      | [], _ => none
      | name, ']' :: after =>
        match instrGroup after with
        | some instr => some (name, instr)
        | none => none
      | _, _ => none
    else none

/-- `re.search`: try the anchored match at each position, leftmost first. -/
def searchMarker : List Char → Option (List Char × List Char)
  | [] => none
  | c :: rest =>
    match matchMarkerAt (c :: rest) with
    | some r => some r
    | none => searchMarker rest

/-- The delegation parse as performed by `MultiAssistantWithLeader.chat`:
first regex match, both groups stripped. -/
def parseDelegationStr (s : String) : Option (String × String) :=
  (searchMarker s.toList).map (fun p => (String.mk (pyStrip p.1), String.mk (pyStrip p.2)))

/-! ## SingleAssistant (workflows.py lines 72-119)

One agent, one persistent thread.  `WorkflowBase.__init__` mints a fresh
thread (line 60); `chat` (non-streaming) runs the agent on that thread
(line 118); `reset` (lines 67-69) replaces the thread with a newly minted
one. -/

structure SAState where
  thread : Thread
deriving Repr

/-- `self.thread = self.agent.get_new_thread()` at construction: a fresh
empty thread. -/
def SAState.init : SAState := ⟨[]⟩

structure SAStep where
  response : String
  state : SAState
  observed : Nat
deriving Repr

/-- `SingleAssistant.chat` (non-streaming branch): one exchange on the
persistent thread.  `observed` is the transcript length the backend sees at
the start of the exchange (what the spec's mock backend reports). -/
def saChat (oracle : Thread → String → String) (st : SAState) (message : String) : SAStep :=
  let response := oracle st.thread message
  ⟨response, ⟨runAppend st.thread message response⟩, st.thread.length⟩

/-- `WorkflowBase.reset`: `self.thread = self.agent.get_new_thread()`. -/
def saReset (_ : SAState) : SAState := ⟨[]⟩

/-! ## SingleAssistantRAG (workflows.py lines 122-210) -/

/-- Python-level errors surfaced by the embedded code. -/
inductive PyErr where
  | attributeError (msg : String)
  | typeError (msg : String)
  | raised (msg : String)
deriving DecidableEq, Repr

/-- A retriever callable: `rag_retriever(message, n_results=top_k)`, which
may itself raise. -/
abbrev Retriever := String → Nat → Except String (List String)

/-- The `rag_retriever` slot of `SingleAssistantRAG`.  `unset` models the
attribute never being assigned (no `docs_path`, so `_initialize_vector_store`
is never called and `__init__` sets only `self.vector_store`); `noneSlot`
models `self.rag_retriever = None` after the initialization exception was
caught; `ready f` models a successfully built retriever. -/
inductive RetrieverSlot where
  | unset
  | noneSlot
  | ready (f : Retriever)

/-- `SingleAssistantRAG.__init__` lines 156-177: the retriever slot after
construction.  `getRagFunction` models `get_rag_function(docs_path=...)`
from `finrobot.functional.rag`, which may raise (in this repository the
module is absent, so the import itself raises). -/
def initRagSlot (docsPath : Option String) (getRagFunction : String → Except String Retriever) :
    RetrieverSlot :=
  match docsPath with
  | Option.none => RetrieverSlot.unset
  | Option.some p =>
    match getRagFunction p with
    | Except.ok f => RetrieverSlot.ready f
    | Except.error _ => RetrieverSlot.noneSlot

/-- `SingleAssistantRAG.chat` lines 191-203: the message actually passed to
the agent, or the exception the statement raises.  Reading an unset
attribute raises `AttributeError`; a retriever exception at call time is not
caught (there is no try/except in `chat`). -/
def ragChatMessage (slot : RetrieverSlot) (topK : Nat) (message : String) : Except PyErr String :=
  match slot with
  | RetrieverSlot.unset =>
    Except.error (PyErr.attributeError "SingleAssistantRAG object has no attribute rag_retriever")
  | RetrieverSlot.noneSlot => Except.ok message
  | RetrieverSlot.ready f =>
    match f message topK with
    | Except.error e => Except.error (PyErr.raised e)
    | Except.ok contextDocs =>
      let context := String.intercalate "\n\n" contextDocs
      Except.ok ("Context from documents:\n" ++ context ++ "\n\nUser query: " ++ message ++ "\n")

/-- `SingleAssistantRAG.chat` lines 191-210 (non-streaming): build the
enhanced message, then one exchange on the persistent thread. -/
def ragChat (slot : RetrieverSlot) (topK : Nat) (oracle : Thread → String → String)
    (st : SAState) (message : String) : Except PyErr SAStep :=
  match ragChatMessage slot topK message with
  | Except.error e => Except.error e
  | Except.ok enhanced => Except.ok (saChat oracle st enhanced)

/-! ## SingleAssistantShadow (workflows.py lines 213-299)

Two agents, two persistent threads.  The backend oracle is fallible here so
that failure of the planning exchange can be observed. -/

/-- A backend call that was issued (agent invoked, message sent). -/
structure Call where
  agent : String
  message : String
deriving DecidableEq, Repr

/-- Fallible backend oracle: an exchange either replies or raises. -/
abbrev OracleE := String → Thread → String → Except String String

structure ShadowWF where
  agentName : String
deriving DecidableEq, Repr

/-- Line 253: `name=f"{self.agent.name}_Shadow"`. -/
def ShadowWF.shadowName (w : ShadowWF) : String := w.agentName ++ "_Shadow"

structure ShadowState where
  thread : Thread
  shadowThread : Thread
deriving Repr

/-- Both threads fresh, as after `__init__` (lines 259, 60). -/
def ShadowState.init : ShadowState := ⟨[], []⟩

/-- Line 275: `f"Create an execution plan for: {message}"`. -/
def planPrompt (message : String) : String := "Create an execution plan for: " ++ message

/-- Lines 282-288: the triple-quoted `execution_message` f-string. -/
def executionMessage (plan message : String) : String :=
  "\nExecute the following plan:\n\n" ++ plan ++ "\n\nOriginal request: " ++ message ++ "\n"

/-- `SingleAssistantShadow.chat` lines 261-294 (non-streaming): shadow
exchange on the shadow thread, then execution exchange on the primary
thread; an uncaught exception aborts the remainder and propagates. -/
def ShadowWF.chat (w : ShadowWF) (oracle : OracleE) (st : ShadowState) (message : String) :
    Except String String × ShadowState × List Call :=
  let pmsg := planPrompt message
  match oracle w.shadowName st.shadowThread pmsg with
  | Except.error e => (Except.error e, st, [⟨w.shadowName, pmsg⟩])
  | Except.ok plan =>
    let st1 : ShadowState := ⟨st.thread, runAppend st.shadowThread pmsg plan⟩
    let emsg := executionMessage plan message
    match oracle w.agentName st1.thread emsg with
    | Except.error e => (Except.error e, st1, [⟨w.shadowName, pmsg⟩, ⟨w.agentName, emsg⟩])
    | Except.ok response =>
      (Except.ok response, ⟨runAppend st1.thread emsg response, st1.shadowThread⟩,
        [⟨w.shadowName, pmsg⟩, ⟨w.agentName, emsg⟩])

/-! ## MultiAssistantWithLeader (workflows.py lines 398-495) -/

structure MWL where
  leader : String
  team : List String
deriving Repr

structure MWLState where
  leaderThread : Thread
  teamThreads : String → Thread

/-- Construction state: leader thread fresh (line 60), one fresh thread per
team member (line 444). -/
def MWLState.init : MWLState := ⟨[], fun _ => []⟩

structure MWLResult where
  response : String
  state : MWLState
  trace : List Exchange

/-- `MultiAssistantWithLeader.chat` lines 446-490: leader exchange, first
delegation marker parsed from the leader's reply; if its target names a team
member (first roster member with that exact name), one member exchange on
the member's own thread and one feedback exchange to the leader; otherwise
the leader's reply is returned as is. -/
def MWL.chat (w : MWL) (oracle : Oracle) (st : MWLState) (message : String) : MWLResult :=
  let leaderResp := oracle w.leader st.leaderThread message
  let st1 : MWLState := ⟨runAppend st.leaderThread message leaderResp, st.teamThreads⟩
  let ex1 : Exchange := ⟨w.leader, message, leaderResp⟩
  match parseDelegationStr leaderResp with
  | Option.none => ⟨leaderResp, st1, [ex1]⟩
  | Option.some (name, instruction) =>
    match w.team.find? (fun m => m = name) with
    | Option.none => ⟨leaderResp, st1, [ex1]⟩
    | Option.some member =>
      let memberThread := st1.teamThreads member
      let memberResp := oracle member memberThread instruction
      let st2 : MWLState :=
        ⟨st1.leaderThread,
          fun n => if n = member then runAppend memberThread instruction memberResp
                   else st1.teamThreads n⟩
      let feedback := "Result from " ++ member ++ ": " ++ memberResp
      let finalResp := oracle w.leader st2.leaderThread feedback
      ⟨finalResp, ⟨runAppend st2.leaderThread feedback finalResp, st2.teamThreads⟩,
        [ex1, ⟨member, instruction, memberResp⟩, ⟨w.leader, feedback, finalResp⟩]⟩

/-! ## MultiAssistant (workflows.py lines 302-395) -/

/-- One round of the group session: the selected speaker and its reply. -/
structure GEx where
  speaker : String
  response : String
deriving DecidableEq, Repr

/-- Modelled from the spec: the round-bounded group-chat session that
`MultiAssistant.chat` (lines 373-391) delegates to the external
`agent_framework.GroupChatBuilder` workflow — the source only configures the
participants, `with_max_rounds(self.max_rounds)` and the selector.  Spec
section 4.6: one agent exchange per round, strictly sequential; the session
ends at the first of a termination token in a response or `max_rounds`
reached.  `fuel` is the number of rounds still allowed. -/
def groupSessionAux (selector : List GEx → String) (respond : String → List GEx → String)
    (isTermination : String → Bool) : Nat → List GEx → List GEx
  | 0, transcript => transcript
  | Nat.succ fuel, transcript =>
    let speaker := selector transcript
    let response := respond speaker transcript
    let transcript2 := transcript ++ [⟨speaker, response⟩]
    if isTermination response then transcript2
    else groupSessionAux selector respond isTermination fuel transcript2

structure MultiAssistant where
  agents : List String
  maxRounds : Nat
  conversation_history : List GEx
deriving DecidableEq, Repr

/-- `MultiAssistant.__init__` lines 342-357: roster and round budget stored,
`self.conversation_history = []`. -/
def MultiAssistant.init (agents : List String) (maxRounds : Nat) : MultiAssistant :=
  ⟨agents, maxRounds, []⟩

/-- `MultiAssistant.chat` lines 359-391: builds and runs the group session
with the configured `max_rounds` and selector, starting from an empty
session transcript; no instance field is written. -/
def MultiAssistant.chat (m : MultiAssistant) (selector : List GEx → String)
    (respond : String → String → List GEx → String) (isTermination : String → Bool)
    (message : String) : List GEx × MultiAssistant :=
  (groupSessionAux selector (fun a t => respond a message t) isTermination m.maxRounds [], m)

/-- `MultiAssistant.reset` lines 393-395: `self.conversation_history = []`. -/
def MultiAssistant.reset (m : MultiAssistant) : MultiAssistant :=
  { m with conversation_history := [] }

/-! ## Substring search

Python's `in` operator on strings (used by `extract_response_text` for the
class-name test, and to state that the `create_agent` error message
enumerates the valid names). -/

/-- `needle` is an initial segment of `hay`. -/
def leadsList (needle hay : List Char) : Bool :=
  match needle, hay with
  | [], _ => true
  | _ :: _, [] => false
  | a :: as, b :: bs => a = b && leadsList as bs

/-- `needle` occurs contiguously inside `hay` (Python `needle in hay`). -/
def occursIn (needle : List Char) : List Char → Bool
  | [] => leadsList needle []
  | c :: rest => leadsList needle (c :: rest) || occursIn needle rest

/-- String-level `needle in hay`. -/
def strOccursIn (needle hay : String) : Bool := occursIn needle.toList hay.toList

/-! ## Response normalization (response_utils.py lines 10-58)

Inputs to `extract_response_text` are arbitrary Python values; they are
embedded as a small universe of Python-like values.  Only class instances
carry attributes (a `dict`, `list`, `str` or `int` has no `text` attribute,
so attribute dispatch is faithful). -/

inductive PyVal where
  | obj (className : String) (attrs : List (String × PyVal))
  | pylist (xs : List PyVal)
  | pydict (entries : List (String × PyVal))
  | pystr (s : String)
  | pyint (n : Int)

/-- `hasattr`/`getattr`: only class instances have (modelled) attributes. -/
def pyGetAttr : PyVal → String → Option PyVal
  | PyVal.obj _ attrs, a => (attrs.find? (fun e => e.1 = a)).map (fun e => e.2)
  | _, _ => none

/-- Dict lookup `d[k]` / `k in d` (first binding wins). -/
def dictLookup (entries : List (String × PyVal)) (k : String) : Option PyVal :=
  (entries.find? (fun e => e.1 = k)).map (fun e => e.2)

/-- `type(x).__name__`. -/
def typeName : PyVal → String
  | PyVal.obj cn _ => cn
  | PyVal.pylist _ => "list"
  | PyVal.pydict _ => "dict"
  | PyVal.pystr _ => "str"
  | PyVal.pyint _ => "int"

def isPyStr : PyVal → Bool
  | PyVal.pystr _ => true
  | _ => false

def asPyStr : PyVal → String
  | PyVal.pystr s => s
  | _ => ""

/-- A single-quote character, used by the repr model. -/
def sq : String := String.singleton (Char.ofNat 39)

mutual

/-- Models Python's `repr` on the embedded value universe (string escaping
inside reprs is not modelled; no claim depends on it). -/
def pyReprV : PyVal → String
  | PyVal.pystr s => sq ++ s ++ sq
  | PyVal.pyint n => toString n
  | PyVal.pylist xs => "[" ++ String.intercalate ", " (pyReprList xs) ++ "]"
  | PyVal.pydict es => "\x7b" ++ String.intercalate ", " (pyReprEntries es) ++ "\x7d"
  | PyVal.obj cn _ => "<" ++ cn ++ " object>"

def pyReprList : List PyVal → List String
  | [] => []
  | x :: xs => pyReprV x :: pyReprList xs

def pyReprEntries : List (String × PyVal) → List String
  | [] => []
  | (k, v) :: es => (sq ++ k ++ sq ++ ": " ++ pyReprV v) :: pyReprEntries es

end

/-- Models Python's `str` builtin on the embedded value universe. -/
def pyToStr : PyVal → String
  | PyVal.pystr s => s
  | v => pyReprV v

/-- Lines 37-40: the text parts contributed by one item of
`event.data.content` when that content is a list: `item.text` if the item
has a `text` attribute (returned raw, whatever its type), else the item
itself if it is a `str`. -/
def itemText (item : PyVal) : Option PyVal :=
  match pyGetAttr item "text" with
  | some t => some t
  | none =>
    match item with
    | PyVal.pystr s => some (PyVal.pystr s)
    | _ => none

/-- Lines 29-40: the text parts contributed by one event of the list branch:
only events whose class name contains `WorkflowOutputEvent` and that have a
`data` attribute with a `content` attribute contribute; a string content
contributes itself, a list content contributes its items' texts. -/
def eventParts (event : PyVal) : List PyVal :=
  if strOccursIn "WorkflowOutputEvent" (typeName event) then
    match pyGetAttr event "data" with
    | some d =>
      match pyGetAttr d "content" with
      | some (PyVal.pystr s) => [PyVal.pystr s]
      | some (PyVal.pylist items) => items.filterMap itemText
      | _ => []
    | none => []
  else []

/-- `extract_response_text` (response_utils.py lines 10-58).  The result is
the raw Python value the function returns (the `text` attribute and a
dict's `text` entry are returned unchanged, whatever their type);
`"\n\n".join` raises `TypeError` when a collected part is not a string. -/
def extract_response_text (response : PyVal) : Except PyErr PyVal :=
  match pyGetAttr response "text" with
  | some t => Except.ok t
  | none =>
    match response with
    | PyVal.pylist events =>
      let textParts := (events.map eventParts).flatten
      match textParts with
      | [] =>
        Except.ok (PyVal.pystr
          ("Workflow completed with events: " ++ String.intercalate ", " (events.map typeName)))
      | _ :: _ =>
        if textParts.all isPyStr then
          Except.ok (PyVal.pystr (String.intercalate "\n\n" (textParts.map asPyStr)))
        else Except.error (PyErr.typeError "sequence item: expected str instance")
    | PyVal.pydict entries =>
      match dictLookup entries "text" with
      | some v => Except.ok v
      | none =>
        match dictLookup entries "content" with
        | some c => Except.ok (PyVal.pystr (pyToStr c))
        | none => Except.ok (PyVal.pystr (pyToStr response))
    | other => Except.ok (PyVal.pystr (pyToStr other))

/-- The well-formedness condition under which every text payload
`extract_response_text` extracts is itself a string: the `text` attribute of
the response, a dict's `text` entry, and every collected event part. -/
def responseOk (response : PyVal) : Bool :=
  match pyGetAttr response "text" with
  | some t => isPyStr t
  | none =>
    match response with
    | PyVal.pylist events => events.all (fun e => (eventParts e).all isPyStr)
    | PyVal.pydict entries =>
      match dictLookup entries "text" with
      | some v => isPyStr v
      | none => true
    | _ => true

/-! ## Agent library (agent_library.py lines 15-534)

`AGENT_CONFIGS` is an insertion-ordered dict of agent configurations.  Each
entry's `name` equals its key; the long `instructions` texts and the
`toolkits` lists are static persona configuration (excluded collaborators in
the spec, section 1) on which no claim depends, so the embedding keeps the
key, `name` and `description` fields. -/

structure AgentCfg where
  name : String
  description : String
deriving DecidableEq, Repr

def AGENT_CONFIGS : List (String × AgentCfg) :=
  [("Software_Developer", ⟨"Software_Developer", "Software developer specializing in Python programming"⟩),
   ("Data_Analyst", ⟨"Data_Analyst", "Data analyst specializing in Python-based data analysis"⟩),
   ("Programmer", ⟨"Programmer", "General purpose programmer proficient in Python"⟩),
   ("Accountant", ⟨"Accountant", "Accountant with knowledge of accounting principles and Python"⟩),
   ("Statistician", ⟨"Statistician", "Statistician with strong background in statistics and Python"⟩),
   ("IT_Specialist", ⟨"IT_Specialist", "IT specialist with strong problem-solving skills"⟩),
   ("Artificial_Intelligence_Engineer", ⟨"Artificial_Intelligence_Engineer", "AI engineer adept in Python and machine learning"⟩),
   ("Financial_Analyst", ⟨"Financial_Analyst", "Financial analyst with strong analytical abilities"⟩),
   ("Market_Analyst", ⟨"Market_Analyst", "Market analyst specializing in financial data collection and analysis"⟩),
   ("Expert_Investor", ⟨"Expert_Investor", "Expert investor for generating customized financial analysis reports"⟩),
   ("Policy_Extractor", ⟨"Policy_Extractor", "Specialized agent for extracting macroeconomic policy discussions from 10-K filings"⟩),
   ("Sentiment_Analyzer", ⟨"Sentiment_Analyzer", "Specialized agent for sentiment analysis of macroeconomic policy discussions"⟩),
   ("FLS_MDA_Analyst", ⟨"FLS_MDA_Analyst", "Forward-Looking Statement analyst specialized in Section 7 (MD&A) analysis"⟩),
   ("FLS_Risk_Analyst", ⟨"FLS_Risk_Analyst", "Forward-Looking Statement analyst specialized in Section 1A (Risk Factors) analysis"⟩)]

/-- The registered agent identifiers, `list(AGENT_CONFIGS.keys())` in
insertion order. -/
def agentKeys : List String := AGENT_CONFIGS.map (fun e => e.1)

/-- `repr` of a Python list of strings, as interpolated into the error
message by the f-string. -/
def pyListRepr (keys : List String) : String :=
  "[" ++ String.intercalate ", " (keys.map (fun k => sq ++ k ++ sq)) ++ "]"

/-- The tail of the `ValueError` message of `create_agent` (everything after
the unknown name). -/
def unknownAgentMsgTail : String :=
  sq ++ " not found in library. Available agents: " ++ pyListRepr agentKeys

/-- `create_agent` (agent_library.py lines 510-534): an unregistered name
raises `ValueError` with a message listing the valid identifiers; a
registered name yields its configuration. -/
def create_agent (agent_name : String) : Except String AgentCfg :=
  match (AGENT_CONFIGS.find? (fun e => e.1 = agent_name)).map (fun e => e.2) with
  | Option.none => Except.error ("Agent " ++ sq ++ agent_name ++ unknownAgentMsgTail)
  | Option.some cfg => Except.ok cfg

/-! ## Concrete backend doubles

Mock backends realizing the spec's concrete scenarios (spec section 8). -/

/-- Mock backend for the leader-delegation scenario: the leader's first
response delegates to `Market_Analyst`; the member reports a price; the
leader's second response is its final summary. -/
def delegOracle : Oracle := fun agent _ message =>
  if agent = "Market_Analyst" then "price is 42"
  else if message = "analyze NVDA" then "[Market_Analyst] fetch price"
  else "final summary"

/-- Mock fallible backend for the shadow pattern: the shadow agent answers
with a fixed plan, the primary agent with a fixed result. -/
def shadowOracleOk : OracleE := fun agent _ _ =>
  if agent = "Expert_Investor_Shadow" then Except.ok "PLAN" else Except.ok "DONE"

/-- Mock fallible backend whose every exchange fails. -/
def shadowOracleFail : OracleE := fun _ _ _ => Except.error "TransportError: 429"

/-! ## Helper lemmas -/

theorem searchMarker_no_bracket (s : List Char) (h : '[' ∉ s) : searchMarker s = Option.none := by
  induction s with
  | nil => rfl
  | cons c rest ih =>
    have hc : ¬ (c = '[') := by
      intro hc
      exact h (by simp [hc])
    have hr : '[' ∉ rest := fun hm => h (List.mem_cons_of_mem _ hm)
    simp [searchMarker, matchMarkerAt, hc, ih hr]

theorem find_first_of_mem (l : List String) (n : String) (h : n ∈ l) :
    l.find? (fun m => m = n) = some n := by
  induction l with
  | nil => cases h
  | cons a l ih =>
    by_cases ha : a = n
    · simp [List.find?, ha]
    · rcases List.mem_cons.mp h with h1 | h2
      · exact absurd h1.symm ha
      · simp [List.find?, ha, ih h2]

theorem find_first_of_not_mem (l : List String) (n : String) (h : n ∉ l) :
    l.find? (fun m => m = n) = Option.none := by
  induction l with
  | nil => rfl
  | cons a l ih =>
    have ha : ¬ (a = n) := fun he => h (by simp [he])
    have hl : n ∉ l := fun hm => h (List.mem_cons_of_mem _ hm)
    simp [List.find?, ha, ih hl]

theorem groupSessionAux_length_eq (selector : List GEx → String)
    (respond : String → List GEx → String) (isTermination : String → Bool)
    (h : ∀ a t, isTermination (respond a t) = false) :
    ∀ (fuel : Nat) (tr : List GEx),
      (groupSessionAux selector respond isTermination fuel tr).length = tr.length + fuel := by
  intro fuel
  induction fuel with
  | zero => intro tr; simp [groupSessionAux]
  | succ n ih =>
    intro tr
    simp only [groupSessionAux, h, if_false, Bool.false_eq_true]
    rw [ih]
    simp only [List.length_append, List.length_cons, List.length_nil]
    omega

theorem groupSessionAux_length_le (selector : List GEx → String)
    (respond : String → List GEx → String) (isTermination : String → Bool) :
    ∀ (fuel : Nat) (tr : List GEx),
      (groupSessionAux selector respond isTermination fuel tr).length ≤ tr.length + fuel := by
  intro fuel
  induction fuel with
  | zero => intro tr; simp [groupSessionAux]
  | succ n ih =>
    intro tr
    simp only [groupSessionAux]
    by_cases ht : isTermination (respond (selector tr) tr) = true
    · simp only [ht, if_true]
      simp only [List.length_append, List.length_cons, List.length_nil]
      omega
    · simp only [ht, if_false]
      calc (groupSessionAux selector respond isTermination n
              (tr ++ [(⟨selector tr, respond (selector tr) tr⟩ : GEx)])).length
          ≤ (tr ++ [(⟨selector tr, respond (selector tr) tr⟩ : GEx)]).length + n := ih _
        _ ≤ tr.length + (n + 1) := by
            simp only [List.length_append, List.length_cons, List.length_nil]
            omega

theorem flatten_all_isPyStr (events : List PyVal)
    (h : events.all (fun e => (eventParts e).all isPyStr) = true) :
    ((events.map eventParts).flatten).all isPyStr = true := by
  induction events with
  | nil => rfl
  | cons e es ih =>
    simp only [List.all_cons, Bool.and_eq_true] at h
    simp only [List.map_cons, List.flatten_cons, List.all_append, Bool.and_eq_true]
    exact ⟨h.1, ih h.2⟩

theorem exists_of_isPyStr (v : PyVal) (h : isPyStr v = true) : ∃ s, v = PyVal.pystr s := by
  cases v with
  | pystr s => exact ⟨s, rfl⟩
  | obj cn attrs => simp [isPyStr] at h
  | pylist xs => simp [isPyStr] at h
  | pydict es => simp [isPyStr] at h
  | pyint n => simp [isPyStr] at h

theorem occursIn_append_left (needle x hay : List Char)
    (h : occursIn needle hay = true) : occursIn needle (x ++ hay) = true := by
  induction x with
  | nil => simpa
  | cons c cs ih =>
    simp only [List.cons_append, occursIn, Bool.or_eq_true]
    exact Or.inr ih

/-! ## Claims -/

/-- Claim C1: for every `MultiAssistantWithLeader` and every `chat(message)`
call, if the leader's first response contains no delegation marker, or its
first marker names an agent not in the team roster, `chat` performs exactly
one backend exchange and returns the leader's response unchanged; if the
first marker names a roster member, `chat` performs exactly three backend
exchanges — the leader with `message`, that member with the parsed
instruction on the member's own thread, and the leader with
`"Result from {AgentName}: {memberResponse}"` — and returns the leader's
second response; never more than three exchanges. -/
theorem C1_mwl_single_hop_delegation (w : MWL) (oracle : Oracle) (st : MWLState)
    (message : String) :
    (parseDelegationStr (oracle w.leader st.leaderThread message) = Option.none →
      (w.chat oracle st message).trace =
        [⟨w.leader, message, oracle w.leader st.leaderThread message⟩] ∧
      (w.chat oracle st message).response = oracle w.leader st.leaderThread message) ∧
    (∀ name instruction,
      parseDelegationStr (oracle w.leader st.leaderThread message) =
        Option.some (name, instruction) →
      name ∉ w.team →
      (w.chat oracle st message).trace =
        [⟨w.leader, message, oracle w.leader st.leaderThread message⟩] ∧
      (w.chat oracle st message).response = oracle w.leader st.leaderThread message) ∧
    (∀ name instruction,
      parseDelegationStr (oracle w.leader st.leaderThread message) =
        Option.some (name, instruction) →
      name ∈ w.team →
      (w.chat oracle st message).trace =
        [⟨w.leader, message, oracle w.leader st.leaderThread message⟩,
         ⟨name, instruction, oracle name (st.teamThreads name) instruction⟩,
         ⟨w.leader,
          "Result from " ++ name ++ ": " ++ oracle name (st.teamThreads name) instruction,
          oracle w.leader
            (runAppend st.leaderThread message (oracle w.leader st.leaderThread message))
            ("Result from " ++ name ++ ": " ++ oracle name (st.teamThreads name) instruction)⟩] ∧
      (w.chat oracle st message).response =
        oracle w.leader
          (runAppend st.leaderThread message (oracle w.leader st.leaderThread message))
          ("Result from " ++ name ++ ": " ++ oracle name (st.teamThreads name) instruction)) ∧
    (w.chat oracle st message).trace.length ≤ 3 := by
  refine ⟨?_, ?_, ?_, ?_⟩
  · intro h
    simp [MWL.chat, h]
  · intro name instruction h hn
    simp [MWL.chat, h, find_first_of_not_mem _ _ hn]
  · intro name instruction h hn
    simp [MWL.chat, h, find_first_of_mem _ _ hn]
  · rcases hp : parseDelegationStr (oracle w.leader st.leaderThread message) with _ | ⟨name, instruction⟩
    · simp [MWL.chat, hp]
    · rcases hf : w.team.find? (fun m => m = name) with _ | member
      · simp [MWL.chat, hp, hf]
      · simp [MWL.chat, hp, hf]

/-- Witness for C1: the spec's concrete scenario — leader
`Financial_Analyst`, team `[Market_Analyst]`, leader first response
`"[Market_Analyst] fetch price"`; the member is invoked with
`"fetch price"`, the leader re-invoked with the member's result, and `chat`
returns the leader's second response; three exchanges in total. -/
theorem C1_witness :
    parseDelegationStr (delegOracle "Financial_Analyst" [] "analyze NVDA") =
      Option.some ("Market_Analyst", "fetch price") ∧
    "Market_Analyst" ∈ ["Market_Analyst"] ∧
    (MWL.chat ⟨"Financial_Analyst", ["Market_Analyst"]⟩ delegOracle MWLState.init
        "analyze NVDA").trace =
      [⟨"Financial_Analyst", "analyze NVDA", "[Market_Analyst] fetch price"⟩,
       ⟨"Market_Analyst", "fetch price", "price is 42"⟩,
       ⟨"Financial_Analyst", "Result from Market_Analyst: price is 42", "final summary"⟩] := by
  refine ⟨by decide, by decide, ?_⟩
  exact ((C1_mwl_single_hop_delegation ⟨"Financial_Analyst", ["Market_Analyst"]⟩ delegOracle
    MWLState.init "analyze NVDA").2.2.1 "Market_Analyst" "fetch price" (by decide) (by decide)).1

/-- Claim C2: delegation-marker parsing finds the first occurrence of the
convention `[AgentName] instruction`: `"[Data_Analyst] compute X"` parses to
target `Data_Analyst` and instruction `compute X`; text with no bracketed
marker yields no delegation; the parsed target is matched case-sensitively
(exact string equality) against the team member names, only the first
marker occurrence is used, and there is no aggregation of multiple
markers. -/
theorem C2_marker_parsing :
    parseDelegationStr "[Data_Analyst] compute X" = Option.some ("Data_Analyst", "compute X") ∧
    (∀ s : String, '[' ∉ s.toList → parseDelegationStr s = Option.none) ∧
    parseDelegationStr "x [A] one [B] two" = Option.some ("A", "one [B] two") ∧
    (∀ (team : List String) (name member : String),
      team.find? (fun m => m = name) = some member → member = name ∧ name ∈ team) ∧
    ["Data_Analyst"].find? (fun m => m = "data_analyst") = Option.none := by
  refine ⟨by decide, ?_, by decide, ?_, by decide⟩
  · intro s h
    simp [parseDelegationStr, searchMarker_no_bracket s.data h]
  · intro team name member h
    have h1 : decide (member = name) = true :=
      List.find?_some (p := fun m => decide (m = name)) h
    have h1' : member = name := of_decide_eq_true h1
    have h2 : member ∈ team := List.mem_of_find?_eq_some h
    exact ⟨h1', h1' ▸ h2⟩

/-- Witness for C2: a text without brackets parses to no delegation. -/
theorem C2_witness :
    ('[' ∉ "please proceed without delegation".toList) ∧
    parseDelegationStr "please proceed without delegation" = Option.none := by
  refine ⟨by decide, ?_⟩
  exact C2_marker_parsing.2.1 "please proceed without delegation" (by decide)

/-- Claim C3 (code bug): the claim says `SingleAssistantRAG.chat` never
raises when the retriever is absent, failed to initialize, or fails when
called.  Evaluating the embedded code: constructing with `docs_path=None`
leaves the `rag_retriever` attribute unassigned (`__init__` sets only
`self.vector_store`), so `chat` raises `AttributeError` at
`if self.rag_retriever:` — the failing input.  The init-failure path does
degrade to the raw message as claimed, while a retriever that raises at
call time propagates uncaught (no try/except in `chat`). -/
theorem C3_rag_absent_raises :
    ragChat
        (initRagSlot Option.none (fun _ => Except.error "No module named finrobot.functional.rag"))
        5 (fun _ m => "ok: " ++ m) SAState.init "hello" =
      Except.error
        (PyErr.attributeError "SingleAssistantRAG object has no attribute rag_retriever") ∧
    ragChat
        (initRagSlot (Option.some "docs/")
          (fun _ => Except.error "No module named finrobot.functional.rag"))
        5 (fun _ m => "ok: " ++ m) SAState.init "hello" =
      Except.ok ⟨"ok: hello",
        ⟨[⟨Role.user, "hello"⟩, ⟨Role.assistant, "ok: hello"⟩]⟩, 0⟩ ∧
    ragChat (RetrieverSlot.ready (fun _ _ => Except.error "boom")) 5 (fun _ m => "ok: " ++ m)
        SAState.init "hello" =
      Except.error (PyErr.raised "boom") := by
  exact ⟨rfl, rfl, rfl⟩

/-- Counterexample for C4: the planning message actually sent is
`"Create an execution plan for: {message}"` (capital C) and the execution
message is the full `"\nExecute the following plan:\n\n{plan}\n\nOriginal
request: {message}\n"` template, not the bare
`"{plan}\n\noriginal request: {message}"` the claim states. -/
theorem C4_counterexample :
    ((ShadowWF.chat ⟨"Expert_Investor"⟩ (fun _ _ _ => Except.ok "PLAN") ShadowState.init
        "X").2.2.map Call.message =
      ["Create an execution plan for: X",
       "\nExecute the following plan:\n\nPLAN\n\nOriginal request: X\n"]) ∧
    ((ShadowWF.chat ⟨"Expert_Investor"⟩ (fun _ _ _ => Except.ok "PLAN") ShadowState.init
        "X").2.2.map Call.message ≠
      ["create an execution plan for: X", "PLAN\n\noriginal request: X"]) := by
  exact ⟨rfl, by decide⟩

/-- Claim C4 (amended): for every `SingleAssistantShadow` and every
`chat(message)` call whose two backend exchanges succeed, exactly two
exchanges occur in order: first `"Create an execution plan for: {message}"`
is sent on the shadow thread yielding `plan`, then
`"\nExecute the following plan:\n\n{plan}\n\nOriginal request:
{message}\n"` is sent on the primary thread, and the second exchange's
response is returned. -/
theorem C4_shadow_two_exchanges (w : ShadowWF) (oracle : OracleE) (st : ShadowState)
    (message plan response : String)
    (h1 : oracle w.shadowName st.shadowThread (planPrompt message) = Except.ok plan)
    (h2 : oracle w.agentName st.thread (executionMessage plan message) = Except.ok response) :
    w.chat oracle st message =
      (Except.ok response,
       ⟨runAppend st.thread (executionMessage plan message) response,
        runAppend st.shadowThread (planPrompt message) plan⟩,
       [⟨w.shadowName, planPrompt message⟩, ⟨w.agentName, executionMessage plan message⟩]) := by
  simp [ShadowWF.chat, h1, h2]

/-- Witness for C4: the amended claim at a concrete mock backend. -/
theorem C4_witness :
    shadowOracleOk (ShadowWF.shadowName ⟨"Expert_Investor"⟩) [] (planPrompt "X") =
      Except.ok "PLAN" ∧
    shadowOracleOk "Expert_Investor" [] (executionMessage "PLAN" "X") = Except.ok "DONE" ∧
    ShadowWF.chat ⟨"Expert_Investor"⟩ shadowOracleOk ShadowState.init "X" =
      (Except.ok "DONE",
       ⟨runAppend [] (executionMessage "PLAN" "X") "DONE", runAppend [] (planPrompt "X") "PLAN"⟩,
       [⟨"Expert_Investor_Shadow", planPrompt "X"⟩,
        ⟨"Expert_Investor", executionMessage "PLAN" "X"⟩]) := by
  refine ⟨rfl, rfl, ?_⟩
  exact C4_shadow_two_exchanges ⟨"Expert_Investor"⟩ shadowOracleOk ShadowState.init "X"
    "PLAN" "DONE" rfl rfl

/-- Claim C5: for every `SingleAssistantShadow`, if the planning (shadow)
exchange of `chat(message)` fails, the execution exchange on the primary
thread is never performed and the failure propagates to the caller
unmodified — no fallback to executing on the raw message. -/
theorem C5_shadow_plan_failure_propagates (w : ShadowWF) (oracle : OracleE) (st : ShadowState)
    (message e : String)
    (h : oracle w.shadowName st.shadowThread (planPrompt message) = Except.error e) :
    w.chat oracle st message = (Except.error e, st, [⟨w.shadowName, planPrompt message⟩]) ∧
    (∀ c ∈ (w.chat oracle st message).2.2, c.agent ≠ w.agentName) := by
  have hchat : w.chat oracle st message =
      (Except.error e, st, [⟨w.shadowName, planPrompt message⟩]) := by
    simp [ShadowWF.chat, h]
  refine ⟨hchat, ?_⟩
  intro c hc
  rw [hchat] at hc
  simp only [List.mem_singleton] at hc
  subst hc
  show w.shadowName ≠ w.agentName
  intro heq
  have hlen := congrArg String.length heq
  rw [ShadowWF.shadowName, String.length_append] at hlen
  have h7 : "_Shadow".length = 7 := rfl
  rw [h7] at hlen
  omega

/-- Witness for C5: a failing mock backend — the failure is returned as is
and only the shadow call was issued. -/
theorem C5_witness :
    shadowOracleFail (ShadowWF.shadowName ⟨"Expert_Investor"⟩) [] (planPrompt "X") =
      Except.error "TransportError: 429" ∧
    ShadowWF.chat ⟨"Expert_Investor"⟩ shadowOracleFail ShadowState.init "X" =
      (Except.error "TransportError: 429", ShadowState.init,
       [⟨"Expert_Investor_Shadow", planPrompt "X"⟩]) := by
  refine ⟨rfl, ?_⟩
  exact (C5_shadow_plan_failure_propagates ⟨"Expert_Investor"⟩ shadowOracleFail
    ShadowState.init "X" "TransportError: 429" rfl).1

/-- Claim C6: successive `SingleAssistant.chat` calls without `reset` send
on the same persistent thread, which grows by the two turns of each
exchange: a mock backend observes transcript length 0 then 2 across two
calls; after `reset()` the workflow holds a structurally fresh empty thread,
so the next `chat`'s exchange observes zero prior transcript length. -/
theorem C6_thread_accumulation_and_reset (oracle : Thread → String → String) (A B : String) :
    (saChat oracle SAState.init A).observed = 0 ∧
    (saChat oracle (saChat oracle SAState.init A).state B).observed = 2 ∧
    (∀ (st : SAState) (message : String),
      (saChat oracle st message).state.thread =
        st.thread ++ [⟨Role.user, message⟩, ⟨Role.assistant, oracle st.thread message⟩]) ∧
    (∀ (st : SAState) (message : String), (saChat oracle st message).observed = st.thread.length) ∧
    (∀ st : SAState, (saReset st).thread = []) ∧
    (saChat oracle (saReset (saChat oracle SAState.init A).state) B).observed = 0 := by
  exact ⟨rfl, rfl, fun st message => rfl, fun st message => rfl, fun st => rfl, rfl⟩

/-- Claim C7: for every `MultiAssistant` with round budget `max_rounds` and
any selector/responder pair that never produces the termination token,
`chat(message)` terminates after exactly `max_rounds` selected agent
exchanges; in general the transcript never exceeds `max_rounds` exchanges. -/
theorem C7_round_budget_termination (m : MultiAssistant) (selector : List GEx → String)
    (respond : String → String → List GEx → String) (isTermination : String → Bool)
    (message : String) :
    ((∀ a t, isTermination (respond a message t) = false) →
      (m.chat selector respond isTermination message).1.length = m.maxRounds) ∧
    (m.chat selector respond isTermination message).1.length ≤ m.maxRounds := by
  constructor
  · intro h
    show (groupSessionAux selector (fun a t => respond a message t) isTermination
      m.maxRounds []).length = m.maxRounds
    rw [groupSessionAux_length_eq selector (fun a t => respond a message t) isTermination
      (fun a t => h a t) m.maxRounds []]
    simp
  · have hle := groupSessionAux_length_le selector (fun a t => respond a message t)
      isTermination m.maxRounds []
    simpa using hle

/-- Witness for C7: `max_rounds = 3` with a selector and responder that
never emit the termination token end after exactly three exchanges. -/
theorem C7_witness :
    ((MultiAssistant.init ["Market_Analyst", "Financial_Analyst"] 3).chat
      (fun _ => "Market_Analyst") (fun _ _ _ => "still working") (fun _ => false)
      "collaborate").1.length = 3 := by
  exact (C7_round_budget_termination (MultiAssistant.init ["Market_Analyst", "Financial_Analyst"] 3)
    (fun _ => "Market_Analyst") (fun _ _ _ => "still working") (fun _ => false)
    "collaborate").1 (fun a t => rfl)

/-- Claim C10: `MultiAssistant.conversation_history` is initialized to the
empty list and never written by `chat`, so it is empty before and after
every sequence of `chat` calls, and `reset()` — which reassigns it to a new
empty list — leaves the instance's observable state unchanged. -/
theorem C10_conversation_history_invariant (agents : List String) (maxRounds : Nat)
    (selector : List GEx → String) (respond : String → String → List GEx → String)
    (isTermination : String → Bool) (messages : List String) :
    (MultiAssistant.init agents maxRounds).conversation_history = [] ∧
    (∀ (m : MultiAssistant) (message : String),
      (m.chat selector respond isTermination message).2 = m) ∧
    (messages.foldl (fun m message => (m.chat selector respond isTermination message).2)
        (MultiAssistant.init agents maxRounds)).conversation_history = [] ∧
    (messages.foldl (fun m message => (m.chat selector respond isTermination message).2)
        (MultiAssistant.init agents maxRounds)).reset =
      messages.foldl (fun m message => (m.chat selector respond isTermination message).2)
        (MultiAssistant.init agents maxRounds) := by
  have hfold : ∀ (l : List String) (b : MultiAssistant),
      l.foldl (fun m message => (m.chat selector respond isTermination message).2) b = b := by
    intro l
    induction l with
    | nil => intro b; rfl
    | cons x xs ih => intro b; exact ih b
  refine ⟨rfl, fun m message => rfl, ?_, ?_⟩
  · rw [hfold]
    rfl
  · rw [hfold]
    rfl

/-- Counterexample for C8: on the mapping `{'text': 42}` the normalizer
returns the `text` entry unchanged — the integer 42, not a string — so it
does not return a string for every input. -/
theorem C8_counterexample :
    extract_response_text (PyVal.pydict [("text", PyVal.pyint 42)]) =
      Except.ok (PyVal.pyint 42) ∧
    isPyStr (PyVal.pyint 42) = false := by
  exact ⟨rfl, rfl⟩

/-- Claim C8 (amended): `extract_response_text` never raises and returns a
string for every input whose extracted text payloads (the object's `text`
attribute, a mapping's `text` entry, the text of each collected event part)
are themselves strings; it dispatches as the claim describes — `text` field
for an object, `text` entry (or stringified `content` entry) for a mapping,
joined event texts for a list, stringification only for a value matching no
known shape — but an object or mapping whose `text` payload is a non-string
has that payload returned unchanged. -/
theorem C8_normalizer_returns_string (response : PyVal) (h : responseOk response = true) :
    ∃ s, extract_response_text response = Except.ok (PyVal.pystr s) := by
  cases response with
  | obj cn attrs =>
    cases hF : attrs.find? (fun e => e.1 = "text") with
    | some kv =>
      have ht : isPyStr kv.2 = true := by
        unfold responseOk at h
        simpa [pyGetAttr, hF] using h
      rcases exists_of_isPyStr kv.2 ht with ⟨s, hs⟩
      refine ⟨s, ?_⟩
      simp [extract_response_text, pyGetAttr, hF, hs]
    | none =>
      refine ⟨pyToStr (PyVal.obj cn attrs), ?_⟩
      simp [extract_response_text, pyGetAttr, hF]
  | pystr s => exact ⟨s, rfl⟩
  | pyint n => exact ⟨toString n, rfl⟩
  | pylist events =>
    have hparts : ((events.map eventParts).flatten).all isPyStr = true := by
      apply flatten_all_isPyStr
      unfold responseOk at h
      simpa [pyGetAttr] using h
    simp only [extract_response_text, pyGetAttr]
    cases hp : (events.map eventParts).flatten with
    | nil => exact ⟨_, rfl⟩
    | cons p ps =>
      rw [hp] at hparts
      simp only [hparts, if_true]
      exact ⟨_, rfl⟩
  | pydict entries =>
    cases hL : dictLookup entries "text" with
    | some v =>
      have ht : isPyStr v = true := by
        unfold responseOk at h
        simpa [pyGetAttr, hL] using h
      rcases exists_of_isPyStr v ht with ⟨s, hs⟩
      refine ⟨s, ?_⟩
      simp [extract_response_text, pyGetAttr, hL, hs]
    | none =>
      simp only [extract_response_text, pyGetAttr, hL]
      cases dictLookup entries "content" with
      | some c => exact ⟨_, rfl⟩
      | none => exact ⟨_, rfl⟩

/-- Witness for C8: a response object with a string `text` attribute
normalizes to that string. -/
theorem C8_witness :
    responseOk (PyVal.obj "AgentRunResponse" [("text", PyVal.pystr "hi")]) = true ∧
    ∃ s, extract_response_text (PyVal.obj "AgentRunResponse" [("text", PyVal.pystr "hi")]) =
      Except.ok (PyVal.pystr s) := by
  exact ⟨rfl, C8_normalizer_returns_string _ rfl⟩

set_option maxRecDepth 80000 in
/-- Claim C9: constructing an agent for a name not in the registry fails
with an error whose message enumerates the registered identifiers, while
every registered name constructs without such an error.  Workflows
construct their agents through `create_agent` at `__init__` time
(workflows.py lines 49-57), so these facts apply to any workflow naming an
agent. -/
theorem C9_unknown_agent_configuration_error (name : String) :
    (name ∉ agentKeys →
      create_agent name = Except.error ("Agent " ++ sq ++ name ++ unknownAgentMsgTail) ∧
      ∀ k ∈ agentKeys,
        strOccursIn k ("Agent " ++ sq ++ name ++ unknownAgentMsgTail) = true) ∧
    (name ∈ agentKeys → ∃ cfg, create_agent name = Except.ok cfg) := by
  constructor
  · intro hn
    have hfind : AGENT_CONFIGS.find? (fun e => e.1 = name) = Option.none := by
      rw [List.find?_eq_none]
      intro e he
      simp only [decide_eq_true_eq]
      intro hk
      exact hn (hk ▸ List.mem_map_of_mem (fun x => x.1) he)
    constructor
    · unfold create_agent
      rw [hfind]
      rfl
    · intro k hk
      have hconc : agentKeys.all (fun k => strOccursIn k unknownAgentMsgTail) = true := by decide
      have htail : strOccursIn k unknownAgentMsgTail = true := by
        have := List.all_eq_true.mp hconc k hk
        simpa using this
      show occursIn k.data ("Agent " ++ sq ++ name ++ unknownAgentMsgTail).data = true
      have hsplit : ("Agent " ++ sq ++ name ++ unknownAgentMsgTail).data =
          ("Agent " ++ sq ++ name).data ++ unknownAgentMsgTail.data := by
        rw [String.data_append]
      rw [hsplit]
      exact occursIn_append_left k.data ("Agent " ++ sq ++ name).data unknownAgentMsgTail.data htail
  · intro hn
    have hex : ∃ e ∈ AGENT_CONFIGS, e.1 = name := by
      rcases List.mem_map.mp hn with ⟨e, he, hk⟩
      exact ⟨e, he, hk⟩
    have hsome : (AGENT_CONFIGS.find? (fun e => decide (e.1 = name))).isSome := by
      rw [List.find?_isSome]
      rcases hex with ⟨e, he, hk⟩
      exact ⟨e, he, by simpa using hk⟩
    rcases Option.isSome_iff_exists.mp hsome with ⟨e, hfind⟩
    refine ⟨e.2, ?_⟩
    unfold create_agent
    rw [hfind]
    rfl

/-- Witness for C9: `NoSuchAgent` is rejected with the enumerating message;
`Market_Analyst` is registered and constructs. -/
theorem C9_witness :
    ("NoSuchAgent" ∉ agentKeys) ∧
    create_agent "NoSuchAgent" =
      Except.error ("Agent " ++ sq ++ "NoSuchAgent" ++ unknownAgentMsgTail) ∧
    ("Market_Analyst" ∈ agentKeys) ∧
    (∃ cfg, create_agent "Market_Analyst" = Except.ok cfg) := by
  refine ⟨by decide, ?_, by decide, ?_⟩
  · exact ((C9_unknown_agent_configuration_error "NoSuchAgent").1 (by decide)).1
  · exact (C9_unknown_agent_configuration_error "Market_Analyst").2 (by decide)

end FinRobot
